import Mathlib

/-!
# ARogueProjectile (Source/ActionRoguelike/Projectiles/RogueProjectile.cpp)

A shallow embedding of the member functions of `ARogueProjectile`.

The file is glue between engine callbacks and a handful of engine calls, so the
embedding is a state-passing one: every member function is a function on a
`Frame`, which holds the receiver (`*this`), the file-level trace counter and the
list of engine calls issued so far, in program order.  Engine functions whose
bodies live outside this file are either recorded as a `Call` (when the code
only invokes them) or taken as a field of `Engine` (when their result flows back
into the state this file owns).
-/

set_option linter.dupNamespace false

namespace ActionRoguelike

/-! ## Engine value types -/

/-- C++ `float`, carried as its IEEE-754 binary32 bit pattern.  The file never
computes with a float, it only stores and copies them. -/
structure float where
  bits : Nat
  deriving DecidableEq, Repr

/-- C++ `double`, carried as its IEEE-754 binary64 bit pattern. -/
structure double where
  bits : Nat
  deriving DecidableEq, Repr

/-- The literal `0.0f`. -/
def float.zero : float := ⟨0⟩

/-- The `float` that the integer literal `8000` converts to
(sign 0, exponent 139, mantissa 0x7A0000). -/
def float.ofInt8000 : float := ⟨0x45FA0000⟩

/-- The `double` that the integer literal `1` converts to. -/
def double.one : double := ⟨0x3FF0000000000000⟩

/-- Engine vector: three scalar coordinates. -/
structure FVector where
  X : double
  Y : double
  Z : double
  deriving DecidableEq, Repr

/-- The constructor `FVector(InF)`: every coordinate is `InF`. -/
def FVector.splat (InF : double) : FVector := ⟨InF, InF, InF⟩

/-- Engine rotator. -/
structure FRotator where
  Pitch : double
  Yaw : double
  Roll : double
  deriving DecidableEq, Repr

/-- Address of an engine object; `none` in an `Option UObjectPtr` is `nullptr`. -/
abbrev UObjectPtr := Nat

/-- Engine name type (`FName`). -/
abbrev FName := String

/-- Pooling methods of Niagara components. -/
inductive ENCPoolMethod
  | None
  | AutoRelease
  | ManualRelease
  | ManualRelease_OnComplete
  | FreeInPool
  deriving DecidableEq, Repr

/-- Reasons the engine passes to `EndPlay`. -/
inductive EEndPlayReason
  | Destroyed
  | LevelTransition
  | EndPlayInEditor
  | RemovedFromWorld
  | Quit
  deriving DecidableEq, Repr

/-- The part of the engine hit record a handler can look at. -/
structure FHitResult where
  bBlockingHit : Bool
  bStartPenetrating : Bool
  Time : float
  Location : FVector
  ImpactPoint : FVector
  Normal : FVector
  ImpactNormal : FVector
  deriving DecidableEq, Repr

/-- Member functions of this class that can be bound to a delegate. -/
inductive Handler
  | OnActorHit
  deriving DecidableEq, Repr

/-! ## Engine calls issued by the file -/

/-- The engine calls that appear in the file.  The constructors `Destroy`,
`NiagaraLoopComp_Activate`, `NiagaraLoopComp_Deactivate`,
`NiagaraLoopComp_ResetSystem`, `AudioComp_Play` and `AudioComp_Stop` are the
calls the file has in comments only (lines 78, 79, 85, 93, 94, 123); no
function below issues them. -/
inductive Call
  | SpawnSystemAtLocation (WorldContextObject : UObjectPtr)
      (SystemTemplate : Option UObjectPtr) (Location : FVector) (Rotation : FRotator)
      (Scale : FVector) (bAutoDestroy : Bool) (bAutoActivate : Bool)
      (PoolingMethod : ENCPoolMethod)
  | PlaySoundAtLocation (WorldContextObject : UObjectPtr) (Sound : Option UObjectPtr)
      (Location : FVector)
  | PlayWorldCameraShake (WorldContextObject : UObjectPtr) (Shake : Option UObjectPtr)
      (Epicenter : FVector) (InnerRadius : float) (OuterRadius : float)
  | ReleaseToPool (Actor : UObjectPtr)
  | Destroy (Actor : UObjectPtr)
  | Super_PostInitializeComponents
  | Super_BeginPlay
  | Super_EndPlay (EndPlayReason : EEndPlayReason)
  | Super_MoveDataToSparseClassDataStruct
  | MoveComp_Reset
  | NiagaraLoopComp_SetPaused (bInPaused : Bool)
  | AudioComp_SetPaused (bPause : Bool)
  | NiagaraLoopComp_Activate
  | NiagaraLoopComp_Deactivate
  | NiagaraLoopComp_ResetSystem
  | AudioComp_Play
  | AudioComp_Stop
  deriving DecidableEq, Repr

/-- The call destroys an actor. -/
def Call.isDestroy : Call → Bool
  | .Destroy _ => true
  | _ => false

/-- The call releases an actor to the pool. -/
def Call.isReleaseToPool : Call → Bool
  | .ReleaseToPool _ => true
  | _ => false

/-- The call is one of the three explosion effects: impact VFX spawn, impact
sound, camera shake. -/
def Call.isExplosionEffect : Call → Bool
  | .SpawnSystemAtLocation .. => true
  | .PlaySoundAtLocation .. => true
  | .PlayWorldCameraShake .. => true
  | _ => false

/-- The call activates, deactivates, plays, stops or resets (re-creates the
state of) the looping VFX or the audio component. -/
def Call.isActivation : Call → Bool
  | .NiagaraLoopComp_Activate => true
  | .NiagaraLoopComp_Deactivate => true
  | .NiagaraLoopComp_ResetSystem => true
  | .AudioComp_Play => true
  | .AudioComp_Stop => true
  | _ => false

/-! ## Components -/

/-- The four default subobjects the constructor creates. -/
inductive Subobject
  | SphereComp
  | EffectComp
  | AudioComp
  | ProjectileMoveComp
  deriving DecidableEq, Repr

/-- Collision sphere. `OnComponentHit` is the invocation list of the hit
delegate. -/
structure USphereComponent where
  CollisionProfileName : FName
  bCanEverAffectNavigation : Bool
  OnComponentHit : List (UObjectPtr × Handler)
  deriving DecidableEq, Repr

/-- Looping VFX component. -/
structure UNiagaraComponent where
  AttachParent : Option Subobject
  bIsActive : Bool
  bPaused : Bool
  deriving DecidableEq, Repr

/-- Looping audio component. -/
structure UAudioComponent where
  AttachParent : Option Subobject
  bIsActive : Bool
  bIsPaused : Bool
  deriving DecidableEq, Repr

/-- Projectile movement component. -/
structure URogueProjectileMovementComponent where
  bRotationFollowsVelocity : Bool
  bInitialVelocityInLocalSpace : Bool
  ProjectileGravityScale : float
  InitialSpeed : float
  Velocity : FVector
  bIsActive : Bool
  deriving DecidableEq, Repr

/-- `USphereComponent::SetCollisionProfileName`. -/
def USphereComponent.SetCollisionProfileName (c : USphereComponent) (InName : FName) :
    USphereComponent :=
  { c with CollisionProfileName := InName }

/-- `USphereComponent::SetCanEverAffectNavigation`. -/
def USphereComponent.SetCanEverAffectNavigation (c : USphereComponent) (bRelevant : Bool) :
    USphereComponent :=
  { c with bCanEverAffectNavigation := bRelevant }

/-- `OnComponentHit.AddDynamic(Object, Function)`: one more binding. -/
def USphereComponent.OnComponentHit_AddDynamic (c : USphereComponent) (Object : UObjectPtr)
    (Function : Handler) : USphereComponent :=
  { c with OnComponentHit := c.OnComponentHit ++ [(Object, Function)] }

/-- `UNiagaraComponent::SetupAttachment`. -/
def UNiagaraComponent.SetupAttachment (c : UNiagaraComponent) (InParent : Option Subobject) :
    UNiagaraComponent :=
  { c with AttachParent := InParent }

/-- `UNiagaraComponent::SetPaused`: the requested pause state becomes the
component's pause state. -/
def UNiagaraComponent.SetPaused (c : UNiagaraComponent) (bInPaused : Bool) :
    UNiagaraComponent :=
  { c with bPaused := bInPaused }

/-- `UAudioComponent::SetupAttachment`. -/
def UAudioComponent.SetupAttachment (c : UAudioComponent) (InParent : Option Subobject) :
    UAudioComponent :=
  { c with AttachParent := InParent }

/-- `UAudioComponent::SetPaused`: the requested pause state becomes the
component's pause state. -/
def UAudioComponent.SetPaused (c : UAudioComponent) (bPause : Bool) : UAudioComponent :=
  { c with bIsPaused := bPause }

/-! ## Class object and sparse class data -/

/-- The sparse class data of the projectile class: the two properties the file
moves (lines 148, 149). -/
structure FProjectileSparseData where
  ImpactShakeInnerRadius : float
  ImpactShakeOuterRadius : float
  deriving DecidableEq, Repr

/-- The fields of `UBlueprintGeneratedClass` the file reads. -/
structure UBlueprintGeneratedClass where
  bIsSparseClassDataSerializable : Bool
  deriving DecidableEq, Repr

/-- The class object returned by `GetClass()`.  `AsBlueprintGeneratedClass` is
the result of `Cast<UBlueprintGeneratedClass>`: `none` (`nullptr`) for a class
that is not Blueprint-generated. -/
structure UClass where
  AsBlueprintGeneratedClass : Option UBlueprintGeneratedClass
  SparseClassData : FProjectileSparseData
  deriving DecidableEq, Repr

/-! ## The actor -/

/-- The projectile: `ThisPtr` is the address of the object (`this`), `Class` is
`GetClass()`, `ActorLocation` and `ActorRotation` are what `GetActorLocation()`
and `GetActorRotation()` return. -/
structure ARogueProjectile where
  ThisPtr : UObjectPtr
  Class : UClass
  RootComponent : Option Subobject
  bReplicates : Bool
  ActorLocation : FVector
  ActorRotation : FRotator
  SphereComp : USphereComponent
  NiagaraLoopComp : UNiagaraComponent
  AudioComp : UAudioComponent
  MoveComp : URogueProjectileMovementComponent
  ImpactVFX : Option UObjectPtr
  ImpactSound : Option UObjectPtr
  ImpactShake : Option UObjectPtr
  ImpactShakeInnerRadius_DEPRECATED : float
  ImpactShakeOuterRadius_DEPRECATED : float
  deriving DecidableEq, Repr

/-- What a member function runs in: the receiver, the file-level trace counter
declared on line 19, and the engine calls issued so far (oldest first). -/
structure Frame where
  This : ARogueProjectile
  COUNTER_GAME_ActiveProjectiles : Int
  Calls : List Call
  deriving DecidableEq, Repr

/-- Code that this file calls and whose body is elsewhere, where the result
flows back into the state: `URogueProjectileMovementComponent::Reset`, the
parent class's `MoveDataToSparseClassDataStruct` (acting on the class object;
the member function is `const`), and the build switch `WITH_EDITORONLY_DATA`. -/
structure Engine where
  Reset : URogueProjectileMovementComponent → URogueProjectileMovementComponent
  Super_MoveDataToSparseClassDataStruct : UClass → UClass
  WITH_EDITORONLY_DATA : Bool

/-- Record one engine call. -/
def Frame.emit (f : Frame) (c : Call) : Frame :=
  { f with Calls := f.Calls ++ [c] }

/-- Replace the receiver. -/
def Frame.setThis (f : Frame) (p : ARogueProjectile) : Frame :=
  { f with This := p }

/-- `TRACE_COUNTER_INCREMENT(COUNTER_GAME_ActiveProjectiles)`. -/
def Frame.TRACE_COUNTER_INCREMENT (f : Frame) : Frame :=
  { f with COUNTER_GAME_ActiveProjectiles := f.COUNTER_GAME_ActiveProjectiles + 1 }

/-- `TRACE_COUNTER_DECREMENT(COUNTER_GAME_ActiveProjectiles)`. -/
def Frame.TRACE_COUNTER_DECREMENT (f : Frame) : Frame :=
  { f with COUNTER_GAME_ActiveProjectiles := f.COUNTER_GAME_ActiveProjectiles - 1 }

/-! ## Accessors generated for the sparse class data (lines 16, 17) -/

/-- `GetProjectileSparseData()`: the sparse data of the receiver's class. -/
def ARogueProjectile.GetProjectileSparseData (p : ARogueProjectile) : FProjectileSparseData :=
  p.Class.SparseClassData

/-- `GetImpactShakeInnerRadius()`. -/
def ARogueProjectile.GetImpactShakeInnerRadius (p : ARogueProjectile) : float :=
  p.GetProjectileSparseData.ImpactShakeInnerRadius

/-- `GetImpactShakeOuterRadius()`. -/
def ARogueProjectile.GetImpactShakeOuterRadius (p : ARogueProjectile) : float :=
  p.GetProjectileSparseData.ImpactShakeOuterRadius

/-- `GetActorLocation()`. -/
def ARogueProjectile.GetActorLocation (p : ARogueProjectile) : FVector := p.ActorLocation

/-- `GetActorRotation()`. -/
def ARogueProjectile.GetActorRotation (p : ARogueProjectile) : FRotator := p.ActorRotation

/-! ## Member functions -/

/-- Lines 49-56. -/
def ARogueProjectile.PostInitializeComponents (f : Frame) : Frame :=
  let f := f.emit Call.Super_PostInitializeComponents
  f.setThis { f.This with
    SphereComp := f.This.SphereComp.OnComponentHit_AddDynamic f.This.ThisPtr Handler.OnActorHit }

/-- Lines 59-65. -/
def ARogueProjectile.BeginPlay (f : Frame) : Frame :=
  let f := f.emit Call.Super_BeginPlay
  f.TRACE_COUNTER_INCREMENT

/-- Lines 67-71. -/
def ARogueProjectile.EndPlay (EndPlayReason : EEndPlayReason) (f : Frame) : Frame :=
  let f := f.emit (Call.Super_EndPlay EndPlayReason)
  f.TRACE_COUNTER_DECREMENT

/-- Lines 74-88. -/
def ARogueProjectile.PoolBeginPlay_Implementation (E : Engine) (f : Frame) : Frame :=
  let f := (f.emit Call.MoveComp_Reset).setThis { f.This with MoveComp := E.Reset f.This.MoveComp }
  let f := (f.emit (Call.NiagaraLoopComp_SetPaused false)).setThis
    { f.This with NiagaraLoopComp := f.This.NiagaraLoopComp.SetPaused false }
  (f.emit (Call.AudioComp_SetPaused false)).setThis
    { f.This with AudioComp := f.This.AudioComp.SetPaused false }

/-- Lines 91-97. -/
def ARogueProjectile.PoolEndPlay_Implementation (f : Frame) : Frame :=
  let f := (f.emit (Call.NiagaraLoopComp_SetPaused true)).setThis
    { f.This with NiagaraLoopComp := f.This.NiagaraLoopComp.SetPaused true }
  (f.emit (Call.AudioComp_SetPaused true)).setThis
    { f.This with AudioComp := f.This.AudioComp.SetPaused true }

/-- Lines 100-104.  The parent's `LifeSpanExpired` is not called. -/
def ARogueProjectile.LifeSpanExpired (f : Frame) : Frame :=
  f.emit (Call.ReleaseToPool f.This.ThisPtr)

/-- Lines 114-127.  `ReleaseToPool` is a static member of the pooling subsystem
(line 103 calls it class-qualified), so the subsystem looked up on line 125 is
not an argument of the call on line 126; the lookup itself changes nothing. -/
def ARogueProjectile.Explode_Implementation (f : Frame) : Frame :=
  let f := f.emit (Call.SpawnSystemAtLocation f.This.ThisPtr f.This.ImpactVFX
    f.This.GetActorLocation f.This.GetActorRotation (FVector.splat double.one) true true
    ENCPoolMethod.AutoRelease)
  let f := f.emit (Call.PlaySoundAtLocation f.This.ThisPtr f.This.ImpactSound
    f.This.GetActorLocation)
  let f := f.emit (Call.PlayWorldCameraShake f.This.ThisPtr f.This.ImpactShake
    f.This.GetActorLocation f.This.GetImpactShakeInnerRadius f.This.GetImpactShakeOuterRadius)
  f.emit (Call.ReleaseToPool f.This.ThisPtr)

/-- The event `Explode()` of which `Explode_Implementation` is the native body
(line 113): the call runs the native body. -/
def ARogueProjectile.Explode (f : Frame) : Frame :=
  ARogueProjectile.Explode_Implementation f

/-- Lines 107-110. -/
def ARogueProjectile.OnActorHit (_HitComponent : Option UObjectPtr)
    (_OtherActor : Option UObjectPtr) (_OtherComp : Option UObjectPtr)
    (_NormalImpulse : FVector) (_Hit : FHitResult) (f : Frame) : Frame :=
  ARogueProjectile.Explode f

/-- Lines 132-151, as compiled with `WITH_EDITOR`. -/
def ARogueProjectile.MoveDataToSparseClassDataStruct (E : Engine) (f : Frame) : Frame :=
  match f.This.Class.AsBlueprintGeneratedClass with
  | none => f
  | some BPClass =>
    if BPClass.bIsSparseClassDataSerializable == true then f
    else
      let f := (f.emit Call.Super_MoveDataToSparseClassDataStruct).setThis
        { f.This with Class := E.Super_MoveDataToSparseClassDataStruct f.This.Class }
      if E.WITH_EDITORONLY_DATA then
        let SparseClassData := f.This.GetProjectileSparseData
        let SparseClassData := { SparseClassData with
          ImpactShakeInnerRadius := f.This.ImpactShakeInnerRadius_DEPRECATED }
        let SparseClassData := { SparseClassData with
          ImpactShakeOuterRadius := f.This.ImpactShakeOuterRadius_DEPRECATED }
        f.setThis { f.This with Class := { f.This.Class with SparseClassData := SparseClassData } }
      else f

/-- Lines 21-46.  `Default` is the object as the base-class constructor and the
default member initialisers leave it, its components being what
`CreateDefaultSubobject` returns for each component class. -/
def ARogueProjectile.ARogueProjectile (Default : ARogueProjectile) : ARogueProjectile :=
  let p := Default
  let p := { p with SphereComp := p.SphereComp.SetCollisionProfileName "Projectile" }
  let p := { p with SphereComp := p.SphereComp.SetCanEverAffectNavigation false }
  let p := { p with RootComponent := some Subobject.SphereComp }
  let p := { p with NiagaraLoopComp := p.NiagaraLoopComp.SetupAttachment p.RootComponent }
  let p := { p with AudioComp := p.AudioComp.SetupAttachment p.RootComponent }
  let p := { p with MoveComp := { p.MoveComp with bRotationFollowsVelocity := true } }
  let p := { p with MoveComp := { p.MoveComp with bInitialVelocityInLocalSpace := true } }
  let p := { p with MoveComp := { p.MoveComp with ProjectileGravityScale := float.zero } }
  let p := { p with MoveComp := { p.MoveComp with InitialSpeed := float.ofInt8000 } }
  { p with bReplicates := true }

/-! ## Observing a member function -/

/-- The engine calls a member function issues when it runs in frame `f`: what it
appends to the calls issued before. -/
def Frame.issuedBy (m : Frame → Frame) (f : Frame) : List Call :=
  (m f).Calls.drop f.Calls.length

/-! ## Sequences of lifecycle operations -/

/-- The lifecycle operations of the file, as the engine invokes them. -/
inductive Op
  | BeginPlay
  | EndPlay (EndPlayReason : EEndPlayReason)
  | PoolBeginPlay
  | PoolEndPlay
  | LifeSpanExpired
  | OnActorHit (HitComponent : Option UObjectPtr) (OtherActor : Option UObjectPtr)
      (OtherComp : Option UObjectPtr) (NormalImpulse : FVector) (Hit : FHitResult)
  | Explode
  deriving DecidableEq, Repr

/-- The member function an operation invokes. -/
def Op.exec (E : Engine) : Op → Frame → Frame
  | .BeginPlay => ARogueProjectile.BeginPlay
  | .EndPlay EndPlayReason => ARogueProjectile.EndPlay EndPlayReason
  | .PoolBeginPlay => ARogueProjectile.PoolBeginPlay_Implementation E
  | .PoolEndPlay => ARogueProjectile.PoolEndPlay_Implementation
  | .LifeSpanExpired => ARogueProjectile.LifeSpanExpired
  | .OnActorHit HitComponent OtherActor OtherComp NormalImpulse Hit =>
      ARogueProjectile.OnActorHit HitComponent OtherActor OtherComp NormalImpulse Hit
  | .Explode => ARogueProjectile.Explode

/-- The operation is a BeginPlay. -/
def Op.isBeginPlay : Op → Bool
  | .BeginPlay => true
  | _ => false

/-- The operation is an EndPlay. -/
def Op.isEndPlay : Op → Bool
  | .EndPlay _ => true
  | _ => false

/-- Run a sequence of operations, each on its own receiver (the projectile the
engine invokes it on, in the state it is in then); the counter and the call log
are shared by all receivers. -/
def runOps (E : Engine) (ops : List (ARogueProjectile × Op)) (f : Frame) : Frame :=
  ops.foldl (fun g x => x.2.exec E (g.setThis x.1)) f

/-- Number of BeginPlay calls minus number of EndPlay calls in a sequence. -/
def beginMinusEnd (ops : List (ARogueProjectile × Op)) : Int :=
  (ops.countP (fun x => x.2.isBeginPlay) : Int) - (ops.countP (fun x => x.2.isEndPlay) : Int)

/-! ## Sample data for the concrete instances -/

/-- An engine whose `Reset` zeroes the velocity and re-activates the component,
whose parent migration does nothing, and which has editor-only data. -/
def sampleEngine : Engine where
  Reset := fun c => { c with Velocity := ⟨⟨0⟩, ⟨0⟩, ⟨0⟩⟩, bIsActive := true }
  Super_MoveDataToSparseClassDataStruct := fun c => c
  WITH_EDITORONLY_DATA := true

/-- A projectile of a native class, with sparse radii 0.0f and 1500.0f and
deprecated radii 250.0f and 2500.0f. -/
def sampleProjectile : ARogueProjectile where
  ThisPtr := 7
  Class := { AsBlueprintGeneratedClass := none,
             SparseClassData := { ImpactShakeInnerRadius := ⟨0⟩,
                                  ImpactShakeOuterRadius := ⟨0x44BB8000⟩ } }
  RootComponent := some Subobject.SphereComp
  bReplicates := true
  ActorLocation := ⟨⟨0x4059000000000000⟩, ⟨0⟩, ⟨0x4049000000000000⟩⟩
  ActorRotation := ⟨⟨0⟩, ⟨0x4056800000000000⟩, ⟨0⟩⟩
  SphereComp := { CollisionProfileName := "Projectile", bCanEverAffectNavigation := false,
                  OnComponentHit := [] }
  NiagaraLoopComp := { AttachParent := some Subobject.SphereComp, bIsActive := true,
                       bPaused := false }
  AudioComp := { AttachParent := some Subobject.SphereComp, bIsActive := true,
                 bIsPaused := true }
  MoveComp := { bRotationFollowsVelocity := true, bInitialVelocityInLocalSpace := true,
                ProjectileGravityScale := float.zero, InitialSpeed := float.ofInt8000,
                Velocity := ⟨⟨0x40BF400000000000⟩, ⟨0⟩, ⟨0⟩⟩, bIsActive := false }
  ImpactVFX := some 11
  ImpactSound := some 12
  ImpactShake := none
  ImpactShakeInnerRadius_DEPRECATED := ⟨0x437A0000⟩
  ImpactShakeOuterRadius_DEPRECATED := ⟨0x451C4000⟩

/-- The sample projectile with the class object replaced. -/
def sampleOfClass (c : Option UBlueprintGeneratedClass) : ARogueProjectile :=
  { sampleProjectile with Class := { sampleProjectile.Class with AsBlueprintGeneratedClass := c } }

/-- A frame around a projectile, with three projectiles counted and one call
issued before. -/
def sampleFrame (p : ARogueProjectile) : Frame where
  This := p
  COUNTER_GAME_ActiveProjectiles := 3
  Calls := [Call.Super_BeginPlay]

/-! ## Theorems -/

theorem issuedBy_of_append (m : Frame → Frame) (f : Frame) (cs : List Call)
    (h : (m f).Calls = f.Calls ++ cs) : Frame.issuedBy m f = cs := by
  simp [Frame.issuedBy, h]

theorem Explode_Implementation_calls (f : Frame) :
    (ARogueProjectile.Explode_Implementation f).Calls = f.Calls ++
      [Call.SpawnSystemAtLocation f.This.ThisPtr f.This.ImpactVFX f.This.ActorLocation
         f.This.ActorRotation (FVector.splat double.one) true true ENCPoolMethod.AutoRelease,
       Call.PlaySoundAtLocation f.This.ThisPtr f.This.ImpactSound f.This.ActorLocation,
       Call.PlayWorldCameraShake f.This.ThisPtr f.This.ImpactShake f.This.ActorLocation
         f.This.Class.SparseClassData.ImpactShakeInnerRadius
         f.This.Class.SparseClassData.ImpactShakeOuterRadius,
       Call.ReleaseToPool f.This.ThisPtr] := by
  simp [ARogueProjectile.Explode_Implementation, Frame.emit,
    ARogueProjectile.GetActorLocation, ARogueProjectile.GetActorRotation,
    ARogueProjectile.GetImpactShakeInnerRadius, ARogueProjectile.GetImpactShakeOuterRadius,
    ARogueProjectile.GetProjectileSparseData]

theorem Explode_Implementation_issued (f : Frame) :
    Frame.issuedBy ARogueProjectile.Explode_Implementation f =
      [Call.SpawnSystemAtLocation f.This.ThisPtr f.This.ImpactVFX f.This.ActorLocation
         f.This.ActorRotation (FVector.splat double.one) true true ENCPoolMethod.AutoRelease,
       Call.PlaySoundAtLocation f.This.ThisPtr f.This.ImpactSound f.This.ActorLocation,
       Call.PlayWorldCameraShake f.This.ThisPtr f.This.ImpactShake f.This.ActorLocation
         f.This.Class.SparseClassData.ImpactShakeInnerRadius
         f.This.Class.SparseClassData.ImpactShakeOuterRadius,
       Call.ReleaseToPool f.This.ThisPtr] :=
  issuedBy_of_append _ f _ (Explode_Implementation_calls f)

theorem Explode_Implementation_counter (f : Frame) :
    (ARogueProjectile.Explode_Implementation f).COUNTER_GAME_ActiveProjectiles =
      f.COUNTER_GAME_ActiveProjectiles := by
  simp [ARogueProjectile.Explode_Implementation, Frame.emit]

/-- C1: for every frame, Explode_Implementation keeps the calls issued before and
issues exactly four calls after them, in this order: the impact VFX spawn, the
impact sound, the camera shake, and ReleaseToPool with the receiver itself as
argument.  Among the issued calls none is a Destroy, exactly one is a
ReleaseToPool, and it is the last one. -/
theorem C1_Explode_Implementation_releases_to_pool (f : Frame) :
    (ARogueProjectile.Explode_Implementation f).Calls =
        f.Calls ++ Frame.issuedBy ARogueProjectile.Explode_Implementation f ∧
      Frame.issuedBy ARogueProjectile.Explode_Implementation f =
        [Call.SpawnSystemAtLocation f.This.ThisPtr f.This.ImpactVFX f.This.GetActorLocation
           f.This.GetActorRotation (FVector.splat double.one) true true
           ENCPoolMethod.AutoRelease,
         Call.PlaySoundAtLocation f.This.ThisPtr f.This.ImpactSound f.This.GetActorLocation,
         Call.PlayWorldCameraShake f.This.ThisPtr f.This.ImpactShake f.This.GetActorLocation
           f.This.GetImpactShakeInnerRadius f.This.GetImpactShakeOuterRadius,
         Call.ReleaseToPool f.This.ThisPtr] ∧
      (∀ c ∈ Frame.issuedBy ARogueProjectile.Explode_Implementation f, c.isDestroy = false) ∧
      (Frame.issuedBy ARogueProjectile.Explode_Implementation f).countP Call.isReleaseToPool
        = 1 ∧
      (Frame.issuedBy ARogueProjectile.Explode_Implementation f).getLast? =
        some (Call.ReleaseToPool f.This.ThisPtr) ∧
      ((Frame.issuedBy ARogueProjectile.Explode_Implementation f).dropLast.map
        Call.isExplosionEffect) = [true, true, true] := by
  rw [Explode_Implementation_issued, Explode_Implementation_calls]
  simp [Call.isDestroy, Call.isReleaseToPool, Call.isExplosionEffect,
    ARogueProjectile.GetActorLocation, ARogueProjectile.GetActorRotation,
    ARogueProjectile.GetImpactShakeInnerRadius, ARogueProjectile.GetImpactShakeOuterRadius,
    ARogueProjectile.GetProjectileSparseData, List.countP_cons]

/-- C2: for every hit component, other actor, other component (null or not),
normal impulse and hit record, OnActorHit leaves the frame exactly as one call of
Explode on the same frame does, so it issues the same calls (the four of the
explosion), and two calls of OnActorHit with different hit arguments give the
same frame.  PostInitializeComponents binds OnActorHit of the receiver to the hit
delegate of the sphere component, after the bindings that were there. -/
theorem C2_OnActorHit_is_Explode (HitComponent OtherActor OtherComp : Option UObjectPtr)
    (NormalImpulse : FVector) (Hit : FHitResult) (f : Frame) :
    ARogueProjectile.OnActorHit HitComponent OtherActor OtherComp NormalImpulse Hit f =
        ARogueProjectile.Explode f ∧
      Frame.issuedBy
          (ARogueProjectile.OnActorHit HitComponent OtherActor OtherComp NormalImpulse Hit) f =
        Frame.issuedBy ARogueProjectile.Explode f ∧
      (∀ (HitComponent2 OtherActor2 OtherComp2 : Option UObjectPtr) (NormalImpulse2 : FVector)
          (Hit2 : FHitResult),
        ARogueProjectile.OnActorHit HitComponent2 OtherActor2 OtherComp2 NormalImpulse2 Hit2 f =
          ARogueProjectile.OnActorHit HitComponent OtherActor OtherComp NormalImpulse Hit f) ∧
      Frame.issuedBy ARogueProjectile.Explode f =
        [Call.SpawnSystemAtLocation f.This.ThisPtr f.This.ImpactVFX f.This.ActorLocation
           f.This.ActorRotation (FVector.splat double.one) true true
           ENCPoolMethod.AutoRelease,
         Call.PlaySoundAtLocation f.This.ThisPtr f.This.ImpactSound f.This.ActorLocation,
         Call.PlayWorldCameraShake f.This.ThisPtr f.This.ImpactShake f.This.ActorLocation
           f.This.Class.SparseClassData.ImpactShakeInnerRadius
           f.This.Class.SparseClassData.ImpactShakeOuterRadius,
         Call.ReleaseToPool f.This.ThisPtr] ∧
      (ARogueProjectile.PostInitializeComponents f).This.SphereComp.OnComponentHit =
        f.This.SphereComp.OnComponentHit ++ [(f.This.ThisPtr, Handler.OnActorHit)] := by
  refine ⟨rfl, rfl, fun _ _ _ _ _ => rfl, ?_, ?_⟩
  · exact Explode_Implementation_issued f
  · simp [ARogueProjectile.PostInitializeComponents, Frame.emit, Frame.setThis,
      USphereComponent.OnComponentHit_AddDynamic]

theorem LifeSpanExpired_issued (f : Frame) :
    Frame.issuedBy ARogueProjectile.LifeSpanExpired f = [Call.ReleaseToPool f.This.ThisPtr] := by
  simp [Frame.issuedBy, ARogueProjectile.LifeSpanExpired, Frame.emit]

/-- C3: for every frame, LifeSpanExpired keeps the calls issued before and issues
exactly one call, ReleaseToPool with the receiver itself as argument; it issues
no Destroy and none of the explosion effects (VFX spawn, sound, camera shake),
and it changes neither the receiver nor the counter. -/
theorem C3_LifeSpanExpired_releases_to_pool (f : Frame) :
    (ARogueProjectile.LifeSpanExpired f).Calls =
        f.Calls ++ Frame.issuedBy ARogueProjectile.LifeSpanExpired f ∧
      Frame.issuedBy ARogueProjectile.LifeSpanExpired f =
        [Call.ReleaseToPool f.This.ThisPtr] ∧
      (Frame.issuedBy ARogueProjectile.LifeSpanExpired f).countP Call.isReleaseToPool = 1 ∧
      (∀ c ∈ Frame.issuedBy ARogueProjectile.LifeSpanExpired f,
        c.isDestroy = false ∧ c.isExplosionEffect = false) ∧
      (ARogueProjectile.LifeSpanExpired f).This = f.This ∧
      (ARogueProjectile.LifeSpanExpired f).COUNTER_GAME_ActiveProjectiles =
        f.COUNTER_GAME_ActiveProjectiles := by
  rw [LifeSpanExpired_issued]
  simp [ARogueProjectile.LifeSpanExpired, Frame.emit, Call.isDestroy, Call.isReleaseToPool,
    Call.isExplosionEffect, List.countP_cons]

theorem MoveData_of_none (E : Engine) (f : Frame)
    (h : f.This.Class.AsBlueprintGeneratedClass = none) :
    ARogueProjectile.MoveDataToSparseClassDataStruct E f = f := by
  simp [ARogueProjectile.MoveDataToSparseClassDataStruct, h]

theorem MoveData_of_serializable (E : Engine) (f : Frame) (BPClass : UBlueprintGeneratedClass)
    (h : f.This.Class.AsBlueprintGeneratedClass = some BPClass)
    (hs : BPClass.bIsSparseClassDataSerializable = true) :
    ARogueProjectile.MoveDataToSparseClassDataStruct E f = f := by
  simp [ARogueProjectile.MoveDataToSparseClassDataStruct, h, hs]

theorem MoveData_of_migrating (E : Engine) (f : Frame) (BPClass : UBlueprintGeneratedClass)
    (h : f.This.Class.AsBlueprintGeneratedClass = some BPClass)
    (hs : BPClass.bIsSparseClassDataSerializable = false)
    (hE : E.WITH_EDITORONLY_DATA = true) :
    ARogueProjectile.MoveDataToSparseClassDataStruct E f =
      { This := { f.This with
          Class := { E.Super_MoveDataToSparseClassDataStruct f.This.Class with
            SparseClassData :=
              { ImpactShakeInnerRadius := f.This.ImpactShakeInnerRadius_DEPRECATED,
                ImpactShakeOuterRadius := f.This.ImpactShakeOuterRadius_DEPRECATED } } },
        COUNTER_GAME_ActiveProjectiles := f.COUNTER_GAME_ActiveProjectiles,
        Calls := f.Calls ++ [Call.Super_MoveDataToSparseClassDataStruct] } := by
  simp [ARogueProjectile.MoveDataToSparseClassDataStruct, h, hs, hE, Frame.emit, Frame.setThis,
    ARogueProjectile.GetProjectileSparseData]

/-- C4: when the class of the receiver is not a Blueprint-generated class, or is
one whose bIsSparseClassDataSerializable is true, MoveDataToSparseClassDataStruct
returns the frame it was given: the parent migration is not invoked (no call is
issued and the result does not depend on the engine), and the sparse class data
is what it was, whatever the deprecated per-instance values are. -/
theorem C4_MoveData_keeps_saved_sparse_data (E : Engine) (f : Frame)
    (h : f.This.Class.AsBlueprintGeneratedClass = none ∨
      ∃ BPClass, f.This.Class.AsBlueprintGeneratedClass = some BPClass ∧
        BPClass.bIsSparseClassDataSerializable = true) :
    ARogueProjectile.MoveDataToSparseClassDataStruct E f = f ∧
      Frame.issuedBy (ARogueProjectile.MoveDataToSparseClassDataStruct E) f = [] ∧
      Call.Super_MoveDataToSparseClassDataStruct ∉
        Frame.issuedBy (ARogueProjectile.MoveDataToSparseClassDataStruct E) f ∧
      (ARogueProjectile.MoveDataToSparseClassDataStruct E f).This.Class.SparseClassData =
        f.This.Class.SparseClassData ∧
      (∀ inner outer : float,
        (ARogueProjectile.MoveDataToSparseClassDataStruct E
          (f.setThis { f.This with ImpactShakeInnerRadius_DEPRECATED := inner,
                                   ImpactShakeOuterRadius_DEPRECATED := outer })
          ).This.Class.SparseClassData = f.This.Class.SparseClassData) := by
  have key : ∀ g : Frame, g.This.Class = f.This.Class →
      ARogueProjectile.MoveDataToSparseClassDataStruct E g = g := by
    intro g hg
    rcases h with h | ⟨BPClass, h, hs⟩
    · exact MoveData_of_none E g (by rw [hg]; exact h)
    · exact MoveData_of_serializable E g BPClass (by rw [hg]; exact h) hs
  have hf := key f rfl
  refine ⟨hf, ?_, ?_, ?_, ?_⟩
  · simp [Frame.issuedBy, hf]
  · simp [Frame.issuedBy, hf]
  · rw [hf]
  · intro inner outer
    rw [key _ (by simp [Frame.setThis])]
    simp [Frame.setThis]

/-- C4 at the sample projectile of a Blueprint-generated class whose sparse data
is serializable: the hypothesis holds there, the frame comes back as it was, and
the sparse radii stay 0.0f and 1500.0f although the deprecated ones differ. -/
theorem C4_MoveData_keeps_saved_sparse_data_witness :
    (sampleFrame (sampleOfClass (some ⟨true⟩))).This.Class.AsBlueprintGeneratedClass =
        some ⟨true⟩ ∧
      ARogueProjectile.MoveDataToSparseClassDataStruct sampleEngine
        (sampleFrame (sampleOfClass (some ⟨true⟩))) = sampleFrame (sampleOfClass (some ⟨true⟩)) ∧
      (ARogueProjectile.MoveDataToSparseClassDataStruct sampleEngine
        (sampleFrame (sampleOfClass (some ⟨true⟩)))).This.Class.SparseClassData =
          { ImpactShakeInnerRadius := ⟨0⟩, ImpactShakeOuterRadius := ⟨0x44BB8000⟩ } :=
  ⟨rfl,
   (C4_MoveData_keeps_saved_sparse_data sampleEngine
      (sampleFrame (sampleOfClass (some ⟨true⟩))) (Or.inr ⟨⟨true⟩, rfl, rfl⟩)).1,
   (C4_MoveData_keeps_saved_sparse_data sampleEngine
      (sampleFrame (sampleOfClass (some ⟨true⟩))) (Or.inr ⟨⟨true⟩, rfl, rfl⟩)).2.2.2.1⟩

/-- C5: for a receiver whose class is a Blueprint-generated class with
bIsSparseClassDataSerializable false, in a build with editor-only data,
MoveDataToSparseClassDataStruct invokes the parent migration exactly once and
nothing else, and afterwards the sparse class data has ImpactShakeInnerRadius
equal to ImpactShakeInnerRadius_DEPRECATED and ImpactShakeOuterRadius equal to
ImpactShakeOuterRadius_DEPRECATED (whatever the parent migration did to the
class), while the deprecated per-instance fields are what they were. -/
theorem C5_MoveData_migrates_radii (E : Engine) (f : Frame) (BPClass : UBlueprintGeneratedClass)
    (h : f.This.Class.AsBlueprintGeneratedClass = some BPClass)
    (hs : BPClass.bIsSparseClassDataSerializable = false)
    (hE : E.WITH_EDITORONLY_DATA = true) :
    Frame.issuedBy (ARogueProjectile.MoveDataToSparseClassDataStruct E) f =
        [Call.Super_MoveDataToSparseClassDataStruct] ∧
      (ARogueProjectile.MoveDataToSparseClassDataStruct E f
        ).This.Class.SparseClassData.ImpactShakeInnerRadius =
          f.This.ImpactShakeInnerRadius_DEPRECATED ∧
      (ARogueProjectile.MoveDataToSparseClassDataStruct E f
        ).This.Class.SparseClassData.ImpactShakeOuterRadius =
          f.This.ImpactShakeOuterRadius_DEPRECATED ∧
      (ARogueProjectile.MoveDataToSparseClassDataStruct E f
        ).This.ImpactShakeInnerRadius_DEPRECATED = f.This.ImpactShakeInnerRadius_DEPRECATED ∧
      (ARogueProjectile.MoveDataToSparseClassDataStruct E f
        ).This.ImpactShakeOuterRadius_DEPRECATED = f.This.ImpactShakeOuterRadius_DEPRECATED := by
  refine ⟨issuedBy_of_append _ f _ ?_, ?_, ?_, ?_, ?_⟩ <;>
    rw [MoveData_of_migrating E f BPClass h hs hE]

/-- C5 at the sample projectile of a Blueprint-generated class whose sparse data
is not serializable yet: the hypotheses hold there, and the sparse radii 0.0f and
1500.0f become the deprecated 250.0f (inner) and 2500.0f (outer), which differ,
so an exchange of the two would show. -/
theorem C5_MoveData_migrates_radii_witness :
    (sampleFrame (sampleOfClass (some ⟨false⟩))).This.Class.AsBlueprintGeneratedClass =
        some ⟨false⟩ ∧
      sampleEngine.WITH_EDITORONLY_DATA = true ∧
      Frame.issuedBy (ARogueProjectile.MoveDataToSparseClassDataStruct sampleEngine)
        (sampleFrame (sampleOfClass (some ⟨false⟩))) =
        [Call.Super_MoveDataToSparseClassDataStruct] ∧
      (ARogueProjectile.MoveDataToSparseClassDataStruct sampleEngine
        (sampleFrame (sampleOfClass (some ⟨false⟩)))
        ).This.Class.SparseClassData.ImpactShakeInnerRadius = ⟨0x437A0000⟩ ∧
      (ARogueProjectile.MoveDataToSparseClassDataStruct sampleEngine
        (sampleFrame (sampleOfClass (some ⟨false⟩)))
        ).This.Class.SparseClassData.ImpactShakeOuterRadius = ⟨0x451C4000⟩ :=
  ⟨rfl, rfl,
   (C5_MoveData_migrates_radii sampleEngine (sampleFrame (sampleOfClass (some ⟨false⟩)))
      ⟨false⟩ rfl rfl rfl).1,
   (C5_MoveData_migrates_radii sampleEngine (sampleFrame (sampleOfClass (some ⟨false⟩)))
      ⟨false⟩ rfl rfl rfl).2.1,
   (C5_MoveData_migrates_radii sampleEngine (sampleFrame (sampleOfClass (some ⟨false⟩)))
      ⟨false⟩ rfl rfl rfl).2.2.1⟩

theorem PoolEndPlay_eq (f : Frame) :
    ARogueProjectile.PoolEndPlay_Implementation f =
      { This := { f.This with
          NiagaraLoopComp := { f.This.NiagaraLoopComp with bPaused := true },
          AudioComp := { f.This.AudioComp with bIsPaused := true } },
        COUNTER_GAME_ActiveProjectiles := f.COUNTER_GAME_ActiveProjectiles,
        Calls := f.Calls ++
          [Call.NiagaraLoopComp_SetPaused true, Call.AudioComp_SetPaused true] } := by
  simp [ARogueProjectile.PoolEndPlay_Implementation, Frame.emit, Frame.setThis,
    UNiagaraComponent.SetPaused, UAudioComponent.SetPaused]

theorem PoolBeginPlay_eq (E : Engine) (f : Frame) :
    ARogueProjectile.PoolBeginPlay_Implementation E f =
      { This := { f.This with
          MoveComp := E.Reset f.This.MoveComp,
          NiagaraLoopComp := { f.This.NiagaraLoopComp with bPaused := false },
          AudioComp := { f.This.AudioComp with bIsPaused := false } },
        COUNTER_GAME_ActiveProjectiles := f.COUNTER_GAME_ActiveProjectiles,
        Calls := f.Calls ++
          [Call.MoveComp_Reset, Call.NiagaraLoopComp_SetPaused false,
           Call.AudioComp_SetPaused false] } := by
  simp [ARogueProjectile.PoolBeginPlay_Implementation, Frame.emit, Frame.setThis,
    UNiagaraComponent.SetPaused, UAudioComponent.SetPaused]

/-- C6: for every frame, whatever the pause state before,
(1) after PoolEndPlay the looping VFX component and the audio component are both
paused, and the only calls issued are the two SetPaused(true);
(2) after PoolBeginPlay both are unpaused, the movement component is the result
of Reset, and the only calls issued are Reset and the two SetPaused(false);
(3) after PoolEndPlay followed by PoolBeginPlay both are unpaused and the
movement component is the Reset of the one before the pair;
(4) no call issued by either hook activates, deactivates, plays, stops or resets
the two components, and their other fields (attachment, active flag) are what
they were. -/
theorem C6_pool_hooks_pause_state (E : Engine) (f : Frame) :
    ((ARogueProjectile.PoolEndPlay_Implementation f).This.NiagaraLoopComp.bPaused = true ∧
      (ARogueProjectile.PoolEndPlay_Implementation f).This.AudioComp.bIsPaused = true ∧
      Frame.issuedBy ARogueProjectile.PoolEndPlay_Implementation f =
        [Call.NiagaraLoopComp_SetPaused true, Call.AudioComp_SetPaused true]) ∧
    ((ARogueProjectile.PoolBeginPlay_Implementation E f).This.NiagaraLoopComp.bPaused = false ∧
      (ARogueProjectile.PoolBeginPlay_Implementation E f).This.AudioComp.bIsPaused = false ∧
      (ARogueProjectile.PoolBeginPlay_Implementation E f).This.MoveComp =
        E.Reset f.This.MoveComp ∧
      Frame.issuedBy (ARogueProjectile.PoolBeginPlay_Implementation E) f =
        [Call.MoveComp_Reset, Call.NiagaraLoopComp_SetPaused false,
         Call.AudioComp_SetPaused false]) ∧
    ((ARogueProjectile.PoolBeginPlay_Implementation E
        (ARogueProjectile.PoolEndPlay_Implementation f)).This.NiagaraLoopComp.bPaused = false ∧
      (ARogueProjectile.PoolBeginPlay_Implementation E
        (ARogueProjectile.PoolEndPlay_Implementation f)).This.AudioComp.bIsPaused = false ∧
      (ARogueProjectile.PoolBeginPlay_Implementation E
        (ARogueProjectile.PoolEndPlay_Implementation f)).This.MoveComp =
          E.Reset f.This.MoveComp) ∧
    ((∀ c ∈ Frame.issuedBy ARogueProjectile.PoolEndPlay_Implementation f,
        c.isActivation = false ∧ c.isDestroy = false) ∧
      (∀ c ∈ Frame.issuedBy (ARogueProjectile.PoolBeginPlay_Implementation E) f,
        c.isActivation = false ∧ c.isDestroy = false) ∧
      (ARogueProjectile.PoolEndPlay_Implementation f).This.NiagaraLoopComp =
        { f.This.NiagaraLoopComp with bPaused := true } ∧
      (ARogueProjectile.PoolEndPlay_Implementation f).This.AudioComp =
        { f.This.AudioComp with bIsPaused := true } ∧
      (ARogueProjectile.PoolBeginPlay_Implementation E f).This.NiagaraLoopComp =
        { f.This.NiagaraLoopComp with bPaused := false } ∧
      (ARogueProjectile.PoolBeginPlay_Implementation E f).This.AudioComp =
        { f.This.AudioComp with bIsPaused := false }) := by
  have hE : Frame.issuedBy ARogueProjectile.PoolEndPlay_Implementation f =
      [Call.NiagaraLoopComp_SetPaused true, Call.AudioComp_SetPaused true] :=
    issuedBy_of_append _ f _ (by rw [PoolEndPlay_eq])
  have hB : Frame.issuedBy (ARogueProjectile.PoolBeginPlay_Implementation E) f =
      [Call.MoveComp_Reset, Call.NiagaraLoopComp_SetPaused false,
       Call.AudioComp_SetPaused false] :=
    issuedBy_of_append _ f _ (by rw [PoolBeginPlay_eq])
  refine ⟨⟨?_, ?_, hE⟩, ⟨?_, ?_, ?_, hB⟩, ⟨?_, ?_, ?_⟩, ⟨?_, ?_, ?_, ?_, ?_, ?_⟩⟩
  case refine_9 => rw [hE]; simp [Call.isActivation, Call.isDestroy]
  case refine_10 => rw [hB]; simp [Call.isActivation, Call.isDestroy]
  all_goals simp [PoolBeginPlay_eq, PoolEndPlay_eq]

theorem Op_exec_counter (E : Engine) (op : Op) (f : Frame) :
    (op.exec E f).COUNTER_GAME_ActiveProjectiles =
      f.COUNTER_GAME_ActiveProjectiles +
        ((if op.isBeginPlay then 1 else 0) - (if op.isEndPlay then 1 else 0)) := by
  cases op <;>
    simp [Op.exec, Op.isBeginPlay, Op.isEndPlay, ARogueProjectile.BeginPlay,
      ARogueProjectile.EndPlay, PoolBeginPlay_eq, PoolEndPlay_eq,
      ARogueProjectile.LifeSpanExpired, ARogueProjectile.OnActorHit, ARogueProjectile.Explode,
      Explode_Implementation_counter, Frame.emit, Frame.TRACE_COUNTER_INCREMENT,
      Frame.TRACE_COUNTER_DECREMENT]
  rfl

theorem runOps_counter (E : Engine) (ops : List (ARogueProjectile × Op)) (f : Frame) :
    (runOps E ops f).COUNTER_GAME_ActiveProjectiles =
      f.COUNTER_GAME_ActiveProjectiles + beginMinusEnd ops := by
  induction ops generalizing f with
  | nil => simp [runOps, beginMinusEnd]
  | cons x xs ih =>
    have hstep : runOps E (x :: xs) f = runOps E xs (x.2.exec E (f.setThis x.1)) := rfl
    rw [hstep, ih, Op_exec_counter]
    have hf : (f.setThis x.1).COUNTER_GAME_ActiveProjectiles =
        f.COUNTER_GAME_ActiveProjectiles := rfl
    rw [hf]
    simp only [beginMinusEnd, List.countP_cons]
    cases hb : x.2.isBeginPlay <;> cases he : x.2.isEndPlay <;> simp <;> omega

theorem runOps_sample :
    (runOps sampleEngine
      [(sampleProjectile, Op.BeginPlay), (sampleOfClass (some ⟨false⟩), Op.BeginPlay),
       (sampleProjectile, Op.PoolEndPlay), (sampleProjectile, Op.PoolBeginPlay),
       (sampleOfClass (some ⟨false⟩), Op.OnActorHit none (some 3) none ⟨⟨0⟩, ⟨0⟩, ⟨0⟩⟩
          ⟨true, false, ⟨0⟩, ⟨⟨0⟩, ⟨0⟩, ⟨0⟩⟩, ⟨⟨0⟩, ⟨0⟩, ⟨0⟩⟩, ⟨⟨0⟩, ⟨0⟩, ⟨0⟩⟩, ⟨⟨0⟩, ⟨0⟩, ⟨0⟩⟩⟩),
       (sampleProjectile, Op.LifeSpanExpired),
       (sampleProjectile, Op.EndPlay EEndPlayReason.Destroyed)]
      { sampleFrame sampleProjectile with COUNTER_GAME_ActiveProjectiles := 0 }
      ).COUNTER_GAME_ActiveProjectiles = 1 := by
  decide

/-- C7: over every sequence of the lifecycle operations (BeginPlay, EndPlay,
PoolBeginPlay, PoolEndPlay, LifeSpanExpired, OnActorHit, Explode), each invoked
on any projectile in any state, the counter after the sequence is the counter
before plus the number of BeginPlay calls minus the number of EndPlay calls; from
counter 0 it is that difference.  BeginPlay adds exactly 1, EndPlay subtracts
exactly 1, and PoolBeginPlay, PoolEndPlay, LifeSpanExpired, OnActorHit and
Explode leave the counter as it was. -/
theorem C7_counter_is_begin_minus_end (E : Engine) (ops : List (ARogueProjectile × Op))
    (f : Frame) :
    (runOps E ops f).COUNTER_GAME_ActiveProjectiles =
        f.COUNTER_GAME_ActiveProjectiles + beginMinusEnd ops ∧
      (runOps E ops { f with COUNTER_GAME_ActiveProjectiles := 0 }
        ).COUNTER_GAME_ActiveProjectiles = beginMinusEnd ops ∧
      (ARogueProjectile.BeginPlay f).COUNTER_GAME_ActiveProjectiles =
        f.COUNTER_GAME_ActiveProjectiles + 1 ∧
      (∀ EndPlayReason, (ARogueProjectile.EndPlay EndPlayReason f).COUNTER_GAME_ActiveProjectiles =
        f.COUNTER_GAME_ActiveProjectiles - 1) ∧
      (ARogueProjectile.PoolBeginPlay_Implementation E f).COUNTER_GAME_ActiveProjectiles =
        f.COUNTER_GAME_ActiveProjectiles ∧
      (ARogueProjectile.PoolEndPlay_Implementation f).COUNTER_GAME_ActiveProjectiles =
        f.COUNTER_GAME_ActiveProjectiles ∧
      (ARogueProjectile.LifeSpanExpired f).COUNTER_GAME_ActiveProjectiles =
        f.COUNTER_GAME_ActiveProjectiles ∧
      (∀ HitComponent OtherActor OtherComp NormalImpulse Hit,
        (ARogueProjectile.OnActorHit HitComponent OtherActor OtherComp NormalImpulse Hit f
          ).COUNTER_GAME_ActiveProjectiles = f.COUNTER_GAME_ActiveProjectiles) ∧
      (ARogueProjectile.Explode f).COUNTER_GAME_ActiveProjectiles =
        f.COUNTER_GAME_ActiveProjectiles := by
  refine ⟨runOps_counter E ops f, ?_, ?_, ?_, ?_, ?_, ?_, ?_, ?_⟩
  · rw [runOps_counter]; simp
  · exact (Op_exec_counter E Op.BeginPlay f).trans (by simp [Op.isBeginPlay, Op.isEndPlay])
  · intro r
    exact (Op_exec_counter E (Op.EndPlay r) f).trans (by
      simp [Op.isBeginPlay, Op.isEndPlay]; rfl)
  · exact (Op_exec_counter E Op.PoolBeginPlay f).trans (by simp [Op.isBeginPlay, Op.isEndPlay])
  · exact (Op_exec_counter E Op.PoolEndPlay f).trans (by simp [Op.isBeginPlay, Op.isEndPlay])
  · exact (Op_exec_counter E Op.LifeSpanExpired f).trans (by
      simp [Op.isBeginPlay, Op.isEndPlay])
  · intro a b c d e
    exact (Op_exec_counter E (Op.OnActorHit a b c d e) f).trans (by
      simp [Op.isBeginPlay, Op.isEndPlay])
  · exact (Op_exec_counter E Op.Explode f).trans (by simp [Op.isBeginPlay, Op.isEndPlay])

/-- C8: whatever the default-constructed object is, after the constructor body
the root component is the sphere component, whose collision profile is
"Projectile" and which cannot affect navigation; the looping VFX component and
the audio component are attached to the root; the movement component has
bRotationFollowsVelocity and bInitialVelocityInLocalSpace true,
ProjectileGravityScale 0.0f and InitialSpeed 8000.0f; and bReplicates is true. -/
theorem C8_constructor_configuration (Default : ARogueProjectile) :
    (ARogueProjectile.ARogueProjectile Default).RootComponent = some Subobject.SphereComp ∧
      (ARogueProjectile.ARogueProjectile Default).SphereComp.CollisionProfileName =
        "Projectile" ∧
      (ARogueProjectile.ARogueProjectile Default).SphereComp.bCanEverAffectNavigation = false ∧
      (ARogueProjectile.ARogueProjectile Default).NiagaraLoopComp.AttachParent =
        (ARogueProjectile.ARogueProjectile Default).RootComponent ∧
      (ARogueProjectile.ARogueProjectile Default).AudioComp.AttachParent =
        (ARogueProjectile.ARogueProjectile Default).RootComponent ∧
      (ARogueProjectile.ARogueProjectile Default).MoveComp.bRotationFollowsVelocity = true ∧
      (ARogueProjectile.ARogueProjectile Default).MoveComp.bInitialVelocityInLocalSpace = true ∧
      (ARogueProjectile.ARogueProjectile Default).MoveComp.ProjectileGravityScale =
        float.zero ∧
      (ARogueProjectile.ARogueProjectile Default).MoveComp.InitialSpeed = float.ofInt8000 ∧
      (ARogueProjectile.ARogueProjectile Default).bReplicates = true := by
  simp [ARogueProjectile.ARogueProjectile, USphereComponent.SetCollisionProfileName,
    USphereComponent.SetCanEverAffectNavigation, UNiagaraComponent.SetupAttachment,
    UAudioComponent.SetupAttachment]

/-- C9: for a receiver whose class is a Blueprint-generated class with
bIsSparseClassDataSerializable false, in a build with editor-only data, running
MoveDataToSparseClassDataStruct and then Explode issues, after the parent
migration, the impact VFX spawn, the impact sound and a PlayWorldCameraShake
whose inner radius is ImpactShakeInnerRadius_DEPRECATED and whose outer radius is
ImpactShakeOuterRadius_DEPRECATED; the epicentre of the shake, the location of
the VFX spawn and the location of the sound are all the actor location. -/
theorem C9_Explode_uses_migrated_radii (E : Engine) (f : Frame)
    (BPClass : UBlueprintGeneratedClass)
    (h : f.This.Class.AsBlueprintGeneratedClass = some BPClass)
    (hs : BPClass.bIsSparseClassDataSerializable = false)
    (hE : E.WITH_EDITORONLY_DATA = true) :
    Frame.issuedBy
        (fun g => ARogueProjectile.Explode (ARogueProjectile.MoveDataToSparseClassDataStruct E g))
        f =
      [Call.Super_MoveDataToSparseClassDataStruct,
       Call.SpawnSystemAtLocation f.This.ThisPtr f.This.ImpactVFX f.This.GetActorLocation
         f.This.GetActorRotation (FVector.splat double.one) true true ENCPoolMethod.AutoRelease,
       Call.PlaySoundAtLocation f.This.ThisPtr f.This.ImpactSound f.This.GetActorLocation,
       Call.PlayWorldCameraShake f.This.ThisPtr f.This.ImpactShake f.This.GetActorLocation
         f.This.ImpactShakeInnerRadius_DEPRECATED f.This.ImpactShakeOuterRadius_DEPRECATED,
       Call.ReleaseToPool f.This.ThisPtr] ∧
    Frame.issuedBy ARogueProjectile.Explode (ARogueProjectile.MoveDataToSparseClassDataStruct E f) =
      [Call.SpawnSystemAtLocation f.This.ThisPtr f.This.ImpactVFX f.This.GetActorLocation
         f.This.GetActorRotation (FVector.splat double.one) true true ENCPoolMethod.AutoRelease,
       Call.PlaySoundAtLocation f.This.ThisPtr f.This.ImpactSound f.This.GetActorLocation,
       Call.PlayWorldCameraShake f.This.ThisPtr f.This.ImpactShake f.This.GetActorLocation
         f.This.ImpactShakeInnerRadius_DEPRECATED f.This.ImpactShakeOuterRadius_DEPRECATED,
       Call.ReleaseToPool f.This.ThisPtr] := by
  constructor
  · apply issuedBy_of_append
    show (ARogueProjectile.Explode_Implementation _).Calls = _
    rw [Explode_Implementation_calls, MoveData_of_migrating E f BPClass h hs hE]
    simp [ARogueProjectile.GetActorLocation, ARogueProjectile.GetActorRotation]
  · show Frame.issuedBy ARogueProjectile.Explode_Implementation _ = _
    rw [Explode_Implementation_issued, MoveData_of_migrating E f BPClass h hs hE]
    simp [ARogueProjectile.GetActorLocation, ARogueProjectile.GetActorRotation]

/-- C9 at the sample projectile of a Blueprint-generated class whose sparse data
is not serializable yet: the hypotheses hold there and the camera shake gets the
radii 250.0f and 2500.0f at the actor location (100, 0, 50). -/
theorem C9_Explode_uses_migrated_radii_witness :
    (sampleFrame (sampleOfClass (some ⟨false⟩))).This.Class.AsBlueprintGeneratedClass =
        some ⟨false⟩ ∧
      sampleEngine.WITH_EDITORONLY_DATA = true ∧
      Frame.issuedBy ARogueProjectile.Explode
          (ARogueProjectile.MoveDataToSparseClassDataStruct sampleEngine
            (sampleFrame (sampleOfClass (some ⟨false⟩)))) =
        [Call.SpawnSystemAtLocation 7 (some 11)
           ⟨⟨0x4059000000000000⟩, ⟨0⟩, ⟨0x4049000000000000⟩⟩
           ⟨⟨0⟩, ⟨0x4056800000000000⟩, ⟨0⟩⟩
           ⟨⟨0x3FF0000000000000⟩, ⟨0x3FF0000000000000⟩, ⟨0x3FF0000000000000⟩⟩ true true
           ENCPoolMethod.AutoRelease,
         Call.PlaySoundAtLocation 7 (some 12) ⟨⟨0x4059000000000000⟩, ⟨0⟩, ⟨0x4049000000000000⟩⟩,
         Call.PlayWorldCameraShake 7 none ⟨⟨0x4059000000000000⟩, ⟨0⟩, ⟨0x4049000000000000⟩⟩
           ⟨0x437A0000⟩ ⟨0x451C4000⟩,
         Call.ReleaseToPool 7] :=
  ⟨rfl, rfl,
   (C9_Explode_uses_migrated_radii sampleEngine (sampleFrame (sampleOfClass (some ⟨false⟩)))
      ⟨false⟩ rfl rfl rfl).2⟩

end ActionRoguelike
